import Mathlib

/-!
Verification of the map-poster generation pipeline (`src/core/poster.py`)
against its natural-language specification.  Python functions are shallowly
embedded as executable Lean definitions: dictionaries become association
lists, floats become rationals, fallible code returns `Option`.
-/

/-- The value of an edge's `highway` attribute: absent, a single string, or a
list of strings (as OSM data may carry either). -/
inductive HighwayTag
  | absent
  | str (s : String)
  | list (l : List String)
deriving DecidableEq

/-- `ROAD_HIERARCHY` from poster.py: an insertion-ordered dict mapping the five
tier names to the raw `highway` tag values belonging to the tier. -/
def ROAD_HIERARCHY : List (String × List String) :=
  [("motorway", ["motorway", "motorway_link"]),
   ("primary", ["trunk", "trunk_link", "primary", "primary_link"]),
   ("secondary", ["secondary", "secondary_link"]),
   ("tertiary", ["tertiary", "tertiary_link"]),
   ("residential", ["residential", "living_street", "unclassified"])]

/-- Tag normalization shared by `get_edge_colors_by_type` and
`get_edge_widths_by_type`: `data.get("highway", "unclassified")`, then a
list-valued tag is replaced by its first element (empty list falls back to
`"unclassified"`). -/
def normalizeHighway : HighwayTag → String
  | HighwayTag.absent => "unclassified"
  | HighwayTag.str s => s
  | HighwayTag.list [] => "unclassified"
  | HighwayTag.list (h :: _) => h

/-- The all-`True` toggle dict substituted when `road_colors` /
`road_thickness` is `None`. -/
def defaultToggles : List (String × Bool) :=
  [("motorway", true), ("primary", true), ("secondary", true),
   ("tertiary", true), ("residential", true)]

/-- Per-edge body of the loop in `get_edge_colors_by_type`: start from
`theme["road_default"]`; unless `normalize_all`, scan `ROAD_HIERARCHY` in
order and on the first tier containing the tag, if that tier's toggle is
enabled (`road_colors.get(road_type, True)`) take
`theme.get("road_" + road_type, theme["road_default"])`, else keep the
default; the loop breaks after the first matching tier either way. -/
def edgeColorFor (theme : List (String × String)) (dflt : String)
    (rc : List (String × Bool)) (normalize_all : Bool) (e : HighwayTag) : String :=
  let highway := normalizeHighway e
  if normalize_all then dflt
  else
    match ROAD_HIERARCHY.find? (fun p => p.2.contains highway) with
    | some (road_type, _) =>
        if (rc.lookup road_type).getD true then
          (theme.lookup (String.append "road_" road_type)).getD dflt
        else dflt
    | none => dflt

/-- `get_edge_colors_by_type` from poster.py, over the list of edge `highway`
attributes.  The theme is an association list; the unconditional access
`theme["road_default"]` raises `KeyError` in Python when the key is absent,
modelled by returning `none`. -/
def get_edge_colors_by_type (edges : List HighwayTag)
    (theme : List (String × String)) (road_colors : Option (List (String × Bool)))
    (normalize_all : Bool) : Option (List String) :=
  let rc := road_colors.getD defaultToggles
  match theme.lookup "road_default" with
  | none => none
  | some dflt => some (edges.map (edgeColorFor theme dflt rc normalize_all))

/-- `ROAD_WIDTHS` from poster.py: motorway 1.2, primary 1.0, secondary 0.8,
tertiary 0.6, residential 0.4 (written as fractions of rationals). -/
def ROAD_WIDTHS : List (String × ℚ) :=
  [("motorway", 12/10), ("primary", 1), ("secondary", 8/10),
   ("tertiary", 6/10), ("residential", 4/10)]

/-- Per-edge body of the loop in `get_edge_widths_by_type`: start from
`ROAD_WIDTHS.get("residential", 0.4)`; unless `normalize_all`, on the first
matching tier with its toggle enabled take `ROAD_WIDTHS.get(road_type, width)`. -/
def edgeWidthFor (rt : List (String × Bool)) (normalize_all : Bool)
    (e : HighwayTag) : ℚ :=
  let highway := normalizeHighway e
  let width := (ROAD_WIDTHS.lookup "residential").getD (4/10)
  if normalize_all then width
  else
    match ROAD_HIERARCHY.find? (fun p => p.2.contains highway) with
    | some (road_type, _) =>
        if (rt.lookup road_type).getD true then
          (ROAD_WIDTHS.lookup road_type).getD width
        else width
    | none => width

/-- `get_edge_widths_by_type` from poster.py, over the list of edge `highway`
attributes. -/
def get_edge_widths_by_type (edges : List HighwayTag)
    (road_thickness : Option (List (String × Bool))) (normalize_all : Bool) :
    List ℚ :=
  let rt := road_thickness.getD defaultToggles
  edges.map (edgeWidthFor rt normalize_all)

/-- A `for`-loop with `break` scanning the insertion-ordered tier dict stops at
the first entry whose tag set contains the tag: stated via `List.find?`. -/
theorem find?_of_first_match (l : List (String × List String)) (i : Nat)
    (t : String) (tags : List String) (hw : String)
    (hget : l[i]? = some (t, tags)) (hmem : hw ∈ tags)
    (hearly : ∀ pr ∈ l.take i, hw ∉ pr.2) :
    l.find? (fun p => p.2.contains hw) = some (t, tags) := by
  induction l generalizing i with
  | nil => simp at hget
  | cons hd tl ih =>
    cases i with
    | zero =>
      simp at hget
      subst hget
      rw [List.find?_cons_of_pos]
      simp [List.contains, hmem]
    | succ n =>
      have hhd : hw ∉ hd.2 := hearly hd (by simp)
      rw [List.find?_cons_of_neg]
      · exact ih n (by simpa using hget) (fun pr hpr => hearly pr (by simp [hpr]))
      · simp [List.contains, hhd]

/-- A tag contained in no tier's tag set makes the tier scan fall through. -/
theorem find?_of_no_match (l : List (String × List String)) (hw : String)
    (hall : ∀ pr ∈ l, hw ∉ pr.2) :
    l.find? (fun p => p.2.contains hw) = none := by
  refine List.find?_eq_none.mpr (fun pr hpr => ?_)
  simp [List.contains, hall pr hpr]

/-- C1: for every edge, with its highway tag normalized (first element of a
list-valued tag, `"unclassified"` when the list is empty or the tag absent):
with `normalize_all = false`, if the tag lies in the tag set of the tier at
position `i` of the fixed order motorway, primary, secondary, tertiary,
residential, and in no earlier tier's set, then `get_edge_colors_by_type`
assigns that tier's theme color when the tier's color toggle is true and the
theme's default color (`road_default`) when it is false; a tag in no tier's
set, or `normalize_all = true`, yields the default color. -/
theorem edge_colors_by_type_spec
    (edges : List HighwayTag) (theme : List (String × String))
    (road_colors : Option (List (String × Bool))) (normalize_all : Bool)
    (dflt : String) (hdflt : theme.lookup "road_default" = some dflt)
    (k : Nat) (e : HighwayTag) (he : edges[k]? = some e) :
    ∃ cs, get_edge_colors_by_type edges theme road_colors normalize_all = some cs ∧
      (normalize_all = true → cs[k]? = some dflt) ∧
      (normalize_all = false →
        (∀ i t tags, ROAD_HIERARCHY[i]? = some (t, tags) →
          normalizeHighway e ∈ tags →
          (∀ pr ∈ ROAD_HIERARCHY.take i, normalizeHighway e ∉ pr.2) →
          ((((road_colors.getD defaultToggles).lookup t).getD true = true →
            ∀ c, theme.lookup (String.append "road_" t) = some c →
              cs[k]? = some c) ∧
           (((road_colors.getD defaultToggles).lookup t).getD true = false →
            cs[k]? = some dflt))) ∧
        ((∀ pr ∈ ROAD_HIERARCHY, normalizeHighway e ∉ pr.2) →
          cs[k]? = some dflt)) := by
  refine ⟨edges.map (edgeColorFor theme dflt (road_colors.getD defaultToggles)
    normalize_all), by simp [get_edge_colors_by_type, hdflt], ?_, ?_⟩
  · intro hn
    simp only [List.getElem?_map, he, Option.map_some]
    simp [edgeColorFor, hn]
  · intro hn
    refine ⟨fun i t tags hgi hmem hearly => ?_, fun hall => ?_⟩
    · have hf := find?_of_first_match ROAD_HIERARCHY i t tags
        (normalizeHighway e) hgi hmem hearly
      have hf2 : List.find? (fun p => decide (normalizeHighway e ∈ p.2))
          ROAD_HIERARCHY = some (t, tags) := by simpa using hf
      refine ⟨fun htog c hc => ?_, fun htog => ?_⟩
      · simp only [List.getElem?_map, he, Option.map_some]
        simp [edgeColorFor, hn, hf2, htog, hc]
      · simp only [List.getElem?_map, he, Option.map_some]
        simp [edgeColorFor, hn, hf2, htog]
    · have hf := find?_of_no_match ROAD_HIERARCHY (normalizeHighway e) hall
      have hf2 : List.find? (fun p => decide (normalizeHighway e ∈ p.2))
          ROAD_HIERARCHY = none := by simpa using hf
      simp only [List.getElem?_map, he, Option.map_some]
      simp [edgeColorFor, hn, hf2]

/-- Witness for C1 at a concrete input: the tag `"trunk"` lies in the primary
tier and in no earlier tier, the toggle dict omits `"primary"` (so the toggle
is enabled), and the theme supplies a primary color, which is assigned. -/
theorem edge_colors_by_type_spec_witness :
    ((get_edge_colors_by_type [HighwayTag.str "trunk"]
        [("road_default", "#D9A08A"), ("road_primary", "#B8653A")]
        (some []) false).getD [])[0]? = some "#B8653A" := by
  obtain ⟨cs, h1, _, h3⟩ := edge_colors_by_type_spec
    [HighwayTag.str "trunk"]
    [("road_default", "#D9A08A"), ("road_primary", "#B8653A")]
    (some []) false "#D9A08A" (by decide) 0 (HighwayTag.str "trunk") (by decide)
  rw [h1]
  exact ((h3 rfl).1 1 "primary" ["trunk", "trunk_link", "primary", "primary_link"]
    (by decide) (by decide) (by decide)).1 (by decide) "#B8653A" (by decide)

/-- C2: for every edge, `get_edge_widths_by_type` assigns the matched tier's
fixed width constant from `ROAD_WIDTHS` when that tier's thickness toggle is
on, and the residential/default width 0.4 when the toggle is off or the tag
matches no tier; when `normalize_all` is true every edge gets the residential
width regardless of the per-tier toggles and of the tag. -/
theorem edge_widths_by_type_spec
    (edges : List HighwayTag) (road_thickness : Option (List (String × Bool)))
    (normalize_all : Bool) (k : Nat) (e : HighwayTag) (he : edges[k]? = some e) :
    (normalize_all = true →
      (get_edge_widths_by_type edges road_thickness normalize_all)[k]? =
        some (4/10)) ∧
    (normalize_all = false →
      (∀ i t tags, ROAD_HIERARCHY[i]? = some (t, tags) →
        normalizeHighway e ∈ tags →
        (∀ pr ∈ ROAD_HIERARCHY.take i, normalizeHighway e ∉ pr.2) →
        ((((road_thickness.getD defaultToggles).lookup t).getD true = true →
          ∀ w, ROAD_WIDTHS.lookup t = some w →
            (get_edge_widths_by_type edges road_thickness normalize_all)[k]? =
              some w) ∧
         (((road_thickness.getD defaultToggles).lookup t).getD true = false →
          (get_edge_widths_by_type edges road_thickness normalize_all)[k]? =
            some (4/10)))) ∧
      ((∀ pr ∈ ROAD_HIERARCHY, normalizeHighway e ∉ pr.2) →
        (get_edge_widths_by_type edges road_thickness normalize_all)[k]? =
          some (4/10))) := by
  have hres : (ROAD_WIDTHS.lookup "residential").getD (4/10) = 4/10 := by rfl
  constructor
  · intro hn
    simp only [get_edge_widths_by_type, List.getElem?_map, he, Option.map_some]
    simp [edgeWidthFor, hn, hres]
  · intro hn
    refine ⟨fun i t tags hgi hmem hearly => ?_, fun hall => ?_⟩
    · have hf := find?_of_first_match ROAD_HIERARCHY i t tags
        (normalizeHighway e) hgi hmem hearly
      have hf2 : List.find? (fun p => decide (normalizeHighway e ∈ p.2))
          ROAD_HIERARCHY = some (t, tags) := by simpa using hf
      refine ⟨fun htog w hw => ?_, fun htog => ?_⟩
      · simp only [get_edge_widths_by_type, List.getElem?_map, he, Option.map_some]
        simp [edgeWidthFor, hn, hf2, htog, hw]
      · simp only [get_edge_widths_by_type, List.getElem?_map, he, Option.map_some]
        simp [edgeWidthFor, hn, hf2, htog, hres]
    · have hf := find?_of_no_match ROAD_HIERARCHY (normalizeHighway e) hall
      have hf2 : List.find? (fun p => decide (normalizeHighway e ∈ p.2))
          ROAD_HIERARCHY = none := by simpa using hf
      simp only [get_edge_widths_by_type, List.getElem?_map, he, Option.map_some]
      simp [edgeWidthFor, hn, hf2, hres]

/-- Witness for C2 at a concrete input: the tag `"secondary"` with its tier
toggle on receives the secondary width 0.8, and under `normalize_all = true`
a motorway edge receives the residential width 0.4. -/
theorem edge_widths_by_type_spec_witness :
    (get_edge_widths_by_type [HighwayTag.str "secondary"]
      (some [("secondary", true)]) false)[0]? = some (8/10) ∧
    (get_edge_widths_by_type [HighwayTag.str "motorway"] none true)[0]? =
      some (4/10) := by
  constructor
  · exact (((edge_widths_by_type_spec [HighwayTag.str "secondary"]
      (some [("secondary", true)]) false 0 (HighwayTag.str "secondary")
      (by decide)).2 rfl).1 2 "secondary" ["secondary", "secondary_link"]
      (by decide) (by decide) (by decide)).1 (by decide) (8/10) (by rfl)
  · exact (edge_widths_by_type_spec [HighwayTag.str "motorway"] none true 0
      (HighwayTag.str "motorway") (by decide)).1 rfl

/-- C9: a tier name missing from a caller-supplied toggle dictionary is
treated as enabled: an edge whose normalized tag first matches that tier
receives the tier-specific theme color and the tier-specific width, not the
defaults. -/
theorem missing_toggle_defaults_enabled
    (edges : List HighwayTag) (theme : List (String × String))
    (rc rt : List (String × Bool)) (dflt : String)
    (hdflt : theme.lookup "road_default" = some dflt)
    (k : Nat) (e : HighwayTag) (he : edges[k]? = some e)
    (i : Nat) (t : String) (tags : List String)
    (hgi : ROAD_HIERARCHY[i]? = some (t, tags))
    (hmem : normalizeHighway e ∈ tags)
    (hearly : ∀ pr ∈ ROAD_HIERARCHY.take i, normalizeHighway e ∉ pr.2)
    (hrc : rc.lookup t = none) (hrt : rt.lookup t = none)
    (c : String) (hc : theme.lookup (String.append "road_" t) = some c)
    (w : ℚ) (hw : ROAD_WIDTHS.lookup t = some w) :
    ∃ cs, get_edge_colors_by_type edges theme (some rc) false = some cs ∧
      cs[k]? = some c ∧
      (get_edge_widths_by_type edges (some rt) false)[k]? = some w := by
  have hf := find?_of_first_match ROAD_HIERARCHY i t tags
    (normalizeHighway e) hgi hmem hearly
  have hf2 : List.find? (fun p => decide (normalizeHighway e ∈ p.2))
      ROAD_HIERARCHY = some (t, tags) := by simpa using hf
  refine ⟨edges.map (edgeColorFor theme dflt rc false),
    by simp [get_edge_colors_by_type, hdflt], ?_, ?_⟩
  · simp only [List.getElem?_map, he, Option.map_some]
    simp [edgeColorFor, hf2, hrc, hc]
  · simp only [get_edge_widths_by_type, List.getElem?_map, he, Option.map_some]
    simp [edgeWidthFor, hf2, hrt, hw]

/-- Witness for C9 at a concrete input: with empty toggle dicts (every tier
missing), a living-street edge gets the residential theme color and the
residential width 0.4 rather than the defaults. -/
theorem missing_toggle_defaults_enabled_witness :
    ((get_edge_colors_by_type [HighwayTag.str "living_street"]
        [("road_default", "#D9A08A"), ("road_residential", "#E5C4B0")]
        (some []) false).getD [])[0]? = some "#E5C4B0" ∧
      (get_edge_widths_by_type [HighwayTag.str "living_street"]
        (some []) false)[0]? = some (4/10) := by
  obtain ⟨cs, h1, h2, h3⟩ :=
    missing_toggle_defaults_enabled [HighwayTag.str "living_street"]
    [("road_default", "#D9A08A"), ("road_residential", "#E5C4B0")]
    [] [] "#D9A08A" (by decide) 0 (HighwayTag.str "living_street") (by decide)
    4 "residential" ["residential", "living_street", "unclassified"]
    (by decide) (by decide) (by decide) (by decide) (by decide)
    "#E5C4B0" (by decide) (4/10) (by rfl)
  rw [h1]
  exact ⟨h2, h3⟩

/-- `get_crop_limits` from poster.py, after the center has been projected to
planar coordinates `(center_x, center_y)`: `aspect = fig_width / fig_height`;
both half-extents start at `dist`; if `aspect > 1` the y half-extent is
divided by the aspect, otherwise the x half-extent is multiplied by it; the
returned limits are the center plus/minus the half-extents per axis. -/
def get_crop_limits (center_x center_y : ℚ) (fig_width fig_height : ℚ)
    (dist : ℚ) : (ℚ × ℚ) × (ℚ × ℚ) :=
  let aspect := fig_width / fig_height
  let half_x := dist
  let half_y := dist
  let half_y := if aspect > 1 then half_x / aspect else half_y
  let half_x := if aspect > 1 then half_x else half_y * aspect
  ((center_x - half_x, center_x + half_x),
   (center_y - half_y, center_y + half_y))

/-- The x half-extent of a crop-limit pair: half the width of the x interval. -/
def xHalfExtent (lims : (ℚ × ℚ) × (ℚ × ℚ)) : ℚ := (lims.1.2 - lims.1.1) / 2

/-- The y half-extent of a crop-limit pair: half the width of the y interval. -/
def yHalfExtent (lims : (ℚ × ℚ) × (ℚ × ℚ)) : ℚ := (lims.2.2 - lims.2.1) / 2

/-- C8: for the same compensated radius and the same (projected) center,
swapping the canvas width and height swaps the crop half-extents computed by
`get_crop_limits` between the x and y axes, and the wider dimension receives
the full radius. -/
theorem crop_limits_swap (cx cy w h d : ℚ) (hw : 0 < w) (hh : 0 < h) :
    xHalfExtent (get_crop_limits cx cy w h d) =
      yHalfExtent (get_crop_limits cx cy h w d) ∧
    yHalfExtent (get_crop_limits cx cy w h d) =
      xHalfExtent (get_crop_limits cx cy h w d) ∧
    (h ≤ w → xHalfExtent (get_crop_limits cx cy w h d) = d) ∧
    (w ≤ h → yHalfExtent (get_crop_limits cx cy w h d) = d) := by
  have hw0 : w ≠ 0 := ne_of_gt hw
  have hh0 : h ≠ 0 := ne_of_gt hh
  have hwh : (1 < w / h) ↔ h < w := one_lt_div hh
  have hhw : (1 < h / w) ↔ w < h := one_lt_div hw
  rcases lt_trichotomy h w with hlt | heq | hgt
  · have h1 : (w / h > 1) = True := by simp [hwh, hlt]
    have h2 : (h / w > 1) = False := by simp [hhw, not_lt.mpr (le_of_lt hlt)]
    refine ⟨?_, ?_, fun _ => ?_, fun hc => absurd hc (not_le.mpr hlt)⟩ <;>
      · simp [get_crop_limits, xHalfExtent, yHalfExtent, h1, h2]
        try field_simp
  · subst heq
    have h1 : (h / h > 1) = False := by simp [hh0]
    refine ⟨?_, ?_, fun _ => ?_, fun _ => ?_⟩ <;>
      · simp [get_crop_limits, xHalfExtent, yHalfExtent, h1]
        try field_simp
  · have h1 : (w / h > 1) = False := by simp [hwh, not_lt.mpr (le_of_lt hgt)]
    have h2 : (h / w > 1) = True := by simp [hhw, hgt]
    refine ⟨?_, ?_, fun hc => absurd hc (not_le.mpr hgt), fun _ => ?_⟩ <;>
      · simp [get_crop_limits, xHalfExtent, yHalfExtent, h1, h2]
        try field_simp

/-- Witness for C8 at the spec's concrete instance: width 12 and height 16
versus width 16 and height 12 swap the half-extents, and the wider dimension
of the landscape case gets the full radius. -/
theorem crop_limits_swap_witness :
    xHalfExtent (get_crop_limits 0 0 12 16 9000) =
      yHalfExtent (get_crop_limits 0 0 16 12 9000) ∧
    yHalfExtent (get_crop_limits 0 0 12 16 9000) =
      xHalfExtent (get_crop_limits 0 0 16 12 9000) ∧
    xHalfExtent (get_crop_limits 0 0 16 12 9000) = 9000 := by
  obtain ⟨h1, h2, h3, _⟩ := crop_limits_swap 0 0 12 16 9000 (by norm_num) (by norm_num)
  obtain ⟨_, _, h3s, _⟩ := crop_limits_swap 0 0 16 12 9000 (by norm_num) (by norm_num)
  exact ⟨h1, h2, h3s (by norm_num)⟩

/-- Round half to even on a rational, modelling the rounding of Python's
fixed-point float formatting. -/
def roundHalfEven (q : ℚ) : ℤ :=
  let f := ⌊q⌋
  if q - f < 1/2 then f
  else if q - f > 1/2 then f + 1
  else if f % 2 = 0 then f else f + 1

/-- Fixed-point formatting to four decimal places on a rational, modelling the
Python format `f"{x:.4f}"` used in the cache keys (the sign that Python keeps
on a negative float rounding to zero is not modelled). -/
def fmt4 (q : ℚ) : String :=
  let n := roundHalfEven (q * 10000)
  let sign := if n < 0 then "-" else ""
  let m := n.natAbs
  let frac := toString (m % 10000)
  let pad := String.mk (List.replicate (4 - frac.length) '0')
  sign ++ toString (m / 10000) ++ "." ++ pad ++ frac

/-- The cache key built by `fetch_features` in poster.py:
`f"{name}_{lat:.4f}_{lon:.4f}_{dist}_{tag_str}"` with
`tag_str = "_".join(tags.keys())`, the tag-filter keys joined in dictionary
insertion order. -/
def features_key (name : String) (lat lon : ℚ) (dist : ℤ)
    (tagKeys : List String) : String :=
  name ++ "_" ++ fmt4 lat ++ "_" ++ fmt4 lon ++ "_" ++ toString dist ++ "_" ++
    String.intercalate "_" tagKeys

/-- Counterexample to C5 as stated: the tag-filter keys are joined in
dictionary insertion order, not sorted, so two calls whose tag filters contain
the same keys in different orders produce different cache keys at the same
center and radius, hence do not hit the same cache entry. -/
theorem features_key_order_sensitive_cex :
    features_key "water" (24414/5) (17611/5) 9000 ["natural", "waterway"] ≠
      features_key "water" (24414/5) (17611/5) 9000 ["waterway", "natural"] := by
  intro h
  have h2 := congrArg String.data h
  simp only [features_key, String.data_append] at h2
  have h3 := List.append_cancel_left h2
  have h4 : String.intercalate "_" ["natural", "waterway"] =
      String.intercalate "_" ["waterway", "natural"] := String.ext h3
  exact absurd h4 (by decide)

/-- C5 amended: `fetch_features` derives its cache key from the feature name,
the center coordinates rounded to 4 decimal places, the radius, and the
tag-filter keys joined in dictionary insertion order; two calls whose tag-key
sequences are equal (same keys in the same order) and whose centers agree
after rounding to 4 decimals hit the same cache entry. -/
theorem features_key_amended
    (name : String) (lat1 lon1 lat2 lon2 : ℚ) (dist : ℤ)
    (tagKeys1 tagKeys2 : List String)
    (hlat : roundHalfEven (lat1 * 10000) = roundHalfEven (lat2 * 10000))
    (hlon : roundHalfEven (lon1 * 10000) = roundHalfEven (lon2 * 10000))
    (hkeys : tagKeys1 = tagKeys2) :
    features_key name lat1 lon1 dist tagKeys1 =
      features_key name lat2 lon2 dist tagKeys2 := by
  simp only [features_key, fmt4, hlat, hlon, hkeys]

/-- Witness for the amended C5 at concrete inputs: centers differing only in
the fifth decimal place round to the same 4-decimal representation and give
identical cache keys. -/
theorem features_key_amended_witness :
    features_key "water" (4885661/100000) (235221/100000) 9000
        ["natural", "waterway"] =
      features_key "water" (4885659/100000) (235219/100000) 9000
        ["natural", "waterway"] := by
  refine features_key_amended "water" (4885661/100000) (235221/100000)
    (4885659/100000) (235219/100000) 9000 ["natural", "waterway"]
    ["natural", "waterway"] ?_ ?_ rfl
  · have h1 : ⌊(4885661/100000 : ℚ) * 10000⌋ = 488566 := by norm_num
    have h2 : ⌊(4885659/100000 : ℚ) * 10000⌋ = 488565 := by norm_num
    simp only [roundHalfEven, h1, h2]
    norm_num
  · have h1 : ⌊(235221/100000 : ℚ) * 10000⌋ = 23522 := by norm_num
    have h2 : ⌊(235219/100000 : ℚ) * 10000⌋ = 23521 := by norm_num
    simp only [roundHalfEven, h1, h2]
    norm_num

/-- An externally visible action of the fetchers, in program order. -/
inductive NetEvent
  | sleep (seconds : ℚ)
  | request
  | cacheWrite
deriving DecidableEq

/-- `RATE_LIMIT_DELAY` from poster.py (1.0 second). -/
def RATE_LIMIT_DELAY : ℚ := 1

/-- The ordered external actions of `fetch_graph` in poster.py: on a cache hit
nothing happens; on a miss `ox.graph_from_point` is called first and the
courtesy sleep of `RATE_LIMIT_DELAY / 2` follows it, before the cache write;
when the request raises, neither the sleep nor the write happens. -/
def fetch_graph_events (cacheHit : Bool) (requestOk : Bool) : List NetEvent :=
  if cacheHit then []
  else if requestOk then
    [NetEvent.request, NetEvent.sleep (RATE_LIMIT_DELAY / 2), NetEvent.cacheWrite]
  else [NetEvent.request]

/-- The ordered external actions of `fetch_features` in poster.py: as for
`fetch_graph` but the sleep after the request is `RATE_LIMIT_DELAY / 3`. -/
def fetch_features_events (cacheHit : Bool) (requestOk : Bool) : List NetEvent :=
  if cacheHit then []
  else if requestOk then
    [NetEvent.request, NetEvent.sleep (RATE_LIMIT_DELAY / 3), NetEvent.cacheWrite]
  else [NetEvent.request]

/-- Predicate picking out sleep events. -/
def isSleep : NetEvent → Bool
  | NetEvent.sleep _ => true
  | _ => false

/-- Predicate picking out the external data request. -/
def isRequest : NetEvent → Bool
  | NetEvent.request => true
  | _ => false

/-- Whether some sleep occurs strictly before the external request in a trace. -/
def sleepBeforeRequest (evs : List NetEvent) : Bool :=
  (evs.takeWhile (fun e => !isRequest e)).any isSleep

/-- The duration of the first sleep event of a trace (0 when there is none). -/
def firstSleepDelay (evs : List NetEvent) : ℚ :=
  match evs.find? isSleep with
  | some (NetEvent.sleep d) => d
  | _ => 0

/-- Counterexample to C6 as stated: on a cache miss whose request succeeds,
both fetchers do sleep, but no sleep precedes the external data request in
either trace — the courtesy delay comes after the request, not before it. -/
theorem courtesy_delay_after_request_cex :
    sleepBeforeRequest (fetch_graph_events false true) = false ∧
    sleepBeforeRequest (fetch_features_events false true) = false ∧
    (fetch_graph_events false true).any isSleep = true ∧
    (fetch_features_events false true).any isSleep = true := by
  refine ⟨rfl, rfl, rfl, rfl⟩

/-- C6 amended: on every cache miss whose request succeeds, `fetch_graph` and
`fetch_features` each perform a fixed courtesy delay immediately after the
external data request (before the cache write), and the delay used for
feature calls (1/3 s) is strictly shorter than the delay used for the
network-graph call (1/2 s). -/
theorem courtesy_delay_amended :
    (fetch_graph_events false true).findIdx isRequest <
      (fetch_graph_events false true).findIdx isSleep ∧
    (fetch_features_events false true).findIdx isRequest <
      (fetch_features_events false true).findIdx isSleep ∧
    firstSleepDelay (fetch_graph_events false true) = RATE_LIMIT_DELAY / 2 ∧
    firstSleepDelay (fetch_features_events false true) = RATE_LIMIT_DELAY / 3 ∧
    firstSleepDelay (fetch_features_events false true) <
      firstSleepDelay (fetch_graph_events false true) := by
  have hg : firstSleepDelay (fetch_graph_events false true) =
      RATE_LIMIT_DELAY / 2 := by
    simp [firstSleepDelay, fetch_graph_events, List.find?, isSleep]
  have hf : firstSleepDelay (fetch_features_events false true) =
      RATE_LIMIT_DELAY / 3 := by
    simp [firstSleepDelay, fetch_features_events, List.find?, isSleep]
  refine ⟨by decide, by decide, hg, hf, ?_⟩
  rw [hg, hf, RATE_LIMIT_DELAY]
  norm_num

/-- The outcome of the single external geocoding lookup in `get_coordinates`:
success, request timeout, service unavailable (carrying the exception text,
which for rate limiting contains the 509 / bandwidth-limit markers that
app.py searches for), or no match found. -/
inductive GeoOutcome
  | success (lat lon : ℚ)
  | timeout
  | unavailable (msg : String)
  | noMatch

/-- Modelled from the spec: the geocoding debug state of the poster module.
`core/__init__.py` imports `get_geocoding_debug_info` and
`clear_geocoding_debug_info` from `.poster` and app.py reads the
`last_error` field of the returned state, but their definitions are missing
from the provided poster.py; per the spec, the geocoder retains a last-error
string in which rate-limiting is distinguishable from the timeout and
no-match failure classes. -/
structure GeoDebugInfo where
  last_error : String
deriving DecidableEq

/-- Modelled from the spec: `get_coordinates` paired with the retained
last-error string, as a function of the external lookup's outcome.  The error
strings follow the three logger messages of `get_coordinates` in poster.py:
timeout, service unavailable with the exception text appended, and no results
found. -/
def get_coordinates_outcome (city country : String) (o : GeoOutcome) :
    Option (ℚ × ℚ) × GeoDebugInfo :=
  match o with
  | GeoOutcome.success la lo => (some (la, lo), ⟨""⟩)
  | GeoOutcome.timeout =>
      (none, ⟨"Geocoding timeout for " ++ (city ++ ", " ++ country)⟩)
  | GeoOutcome.unavailable msg =>
      (none, ⟨"Geocoding service unavailable: " ++ msg⟩)
  | GeoOutcome.noMatch =>
      (none, ⟨"Geocoding found no results for " ++ (city ++ ", " ++ country)⟩)

/-- Modelled from the spec: the accessor through which app.py reads the
retained geocoding debug state. -/
def get_geocoding_debug_info (d : GeoDebugInfo) : GeoDebugInfo := d

/-- A caller-side classifier over the retained last-error string (as app.py
classifies by substring inspection): the three failure classes are told apart
by the leading words of the message. -/
def errorClassOf (s : String) : String :=
  if s.data.take 17 = "Geocoding timeout".data then "timeout"
  else if s.data.take 29 = "Geocoding service unavailable".data then "unavailable"
  else if s.data.take 26 = "Geocoding found no results".data then "no_match"
  else "none"

/-- C7: when the lookup service is unavailable or rate-limited the result is
absent, a last-error string is retained and accessible through
`get_geocoding_debug_info`, it contains the service's message (so rate-limit
markers survive), and its class is distinguishable from the timeout and
no-match failure classes. -/
theorem geocoding_last_error_retained (city country msg : String) :
    (get_coordinates_outcome city country (GeoOutcome.unavailable msg)).1 =
      none ∧
    (get_geocoding_debug_info
        (get_coordinates_outcome city country
          (GeoOutcome.unavailable msg)).2).last_error =
      "Geocoding service unavailable: " ++ msg ∧
    msg.data <:+ (get_coordinates_outcome city country
      (GeoOutcome.unavailable msg)).2.last_error.data ∧
    errorClassOf (get_coordinates_outcome city country
      (GeoOutcome.unavailable msg)).2.last_error = "unavailable" ∧
    errorClassOf (get_coordinates_outcome city country
      GeoOutcome.timeout).2.last_error = "timeout" ∧
    errorClassOf (get_coordinates_outcome city country
      GeoOutcome.noMatch).2.last_error = "no_match" := by
  refine ⟨rfl, rfl, ?_, ?_, ?_, ?_⟩
  · simpa [get_coordinates_outcome, String.data_append] using
      List.suffix_append "Geocoding service unavailable: ".data msg.data
  · simp +decide [get_coordinates_outcome, errorClassOf, String.data_append,
      List.take_append_of_le_length]
  · simp +decide [get_coordinates_outcome, errorClassOf, String.data_append,
      List.take_append_of_le_length]
  · simp +decide [get_coordinates_outcome, errorClassOf, String.data_append,
      List.take_append_of_le_length]

/-- Whether text is primarily Latin script (`is_latin_script` in poster.py),
parametrized by the host language's Unicode alphabetic classifier `isalpha`
(the full Unicode tables behind Python's `str.isalpha` are not embedded).
Empty text, or text with no alphabetic characters at all, counts as Latin;
otherwise the share of alphabetic characters with code point below 0x250 must
exceed 0.8, computed here in exact rational arithmetic. -/
def is_latin_script (isalpha : Char → Bool) (text : List Char) : Bool :=
  if text = [] then true
  else
    let alpha := text.filter isalpha
    let total_alpha := alpha.length
    let latin_count := (alpha.filter (fun c => c.toNat < 0x250)).length
    if total_alpha = 0 then true
    else decide ((latin_count : ℚ) / (total_alpha : ℚ) > 8/10)

/-- A complete theme as the data model requires: all renders supply either a
full theme or the builtin default with the identical key set. -/
structure Theme where
  bg : String
  text : String
  gradient_color : String
  water : String
  parks : String
  road_motorway : String
  road_primary : String
  road_secondary : String
  road_tertiary : String
  road_residential : String
  road_default : String
deriving DecidableEq

/-- The builtin default theme substituted by `create_poster` when no theme is
passed (poster.py lines 462-475). -/
def defaultTheme : Theme :=
  { bg := "#F5EDE4", text := "#8B4513", gradient_color := "#F5EDE4",
    water := "#A8C4C4", parks := "#E8E0D0", road_motorway := "#A0522D",
    road_primary := "#B8653A", road_secondary := "#C9846A",
    road_tertiary := "#D9A08A", road_residential := "#E5C4B0",
    road_default := "#D9A08A" }

/-- The theme dict, as passed to `get_edge_colors_by_type`. -/
def themeToList (t : Theme) : List (String × String) :=
  [("bg", t.bg), ("text", t.text), ("gradient_color", t.gradient_color),
   ("water", t.water), ("parks", t.parks), ("road_motorway", t.road_motorway),
   ("road_primary", t.road_primary), ("road_secondary", t.road_secondary),
   ("road_tertiary", t.road_tertiary),
   ("road_residential", t.road_residential),
   ("road_default", t.road_default)]

/-- On a complete theme the edge-color assignment always succeeds, with
default color `road_default`. -/
theorem get_edge_colors_themeToList (edges : List HighwayTag) (t : Theme)
    (rc : Option (List (String × Bool))) (norm : Bool) :
    get_edge_colors_by_type edges (themeToList t) rc norm =
      some (edges.map (edgeColorFor (themeToList t) t.road_default
        (rc.getD defaultToggles) norm)) := by
  simp +decide [get_edge_colors_by_type, themeToList, List.lookup]

/-- `TYPOGRAPHY_SCALE` from poster.py: the base font sizes. -/
def TYPOGRAPHY_SCALE : List (String × ℚ) :=
  [("main", 60), ("sub", 22), ("coords", 14), ("attr", 8)]

/-- Lookup into `TYPOGRAPHY_SCALE` (all keys used by the code are present). -/
def typo (k : String) : ℚ := (TYPOGRAPHY_SCALE.lookup k).getD 0

/-- Python `override or fallback` on an optional display name: the override is
used unless it is None or empty (falsy). -/
def pyOrStr (a : Option String) (b : String) : String :=
  match a with
  | some s => if s = "" then b else s
  | none => b

/-- Whether a geometry type name survives the polygon filter
`geometry.type.isin(["Polygon", "MultiPolygon"])`. -/
def isPolygonal (t : String) : Bool := t == "Polygon" || t == "MultiPolygon"

/-- Whether a fetched feature layer is drawn: the fetch returned data, the
frame is non-empty, and the polygon filter leaves something to plot
(poster.py lines 509-525). -/
def layerDrawn (geoms : Option (List String)) : Bool :=
  match geoms with
  | none => false
  | some gs => !gs.isEmpty && !(gs.filter isPolygonal).isEmpty

/-- The results of the external fetches and of the drawing backend during one
`create_poster` call: the road-network fetch (the edges' highway attributes;
`none` models `fetch_graph` returning None), the water and parks feature
fetches (each feature's geometry type name; `none` models a failed or empty
fetch), the planar projection of the center point, and whether the drawing
backend raises during composition. -/
structure RenderEnv where
  graphEdges : Option (List HighwayTag)
  waterGeoms : Option (List String)
  parksGeoms : Option (List String)
  projCenter : ℚ × ℚ
  drawError : Bool

/-- The observable content of a successfully composed poster: which feature
layers were drawn, the per-edge styles, the crop limits, the rendered title
string, and the font sizes of the four text elements plus the divider line
width. -/
structure Poster where
  waterDrawn : Bool
  parksDrawn : Bool
  edge_colors : List String
  edge_widths : List ℚ
  crop_xlim : ℚ × ℚ
  crop_ylim : ℚ × ℚ
  spacedCity : String
  countryText : String
  titleSize : ℚ
  subSize : ℚ
  coordsSize : ℚ
  attrSize : ℚ
  dividerWidth : ℚ

/-- `create_poster` from poster.py over the shallow state.  The whole body
runs in a try block whose except clause returns None; `env.drawError` models
any exception raised by the drawing backend, and the explicit size guard
models the ZeroDivisionError that Python raises (and the except catches) when
`min(height, width)` or `height` is zero.  The two font branches (loaded
files versus monospace fallback) produce identical sizes, so font loading is
not modelled.  The attribution font is rebuilt at the unscaled base size
`TYPOGRAPHY_SCALE["attr"]` just before the attribution text is drawn
(poster.py lines 645-648), overwriting the scaled attribution font built
earlier, so `attrSize` carries no scale factor. -/
def create_poster (isalpha : Char → Bool) (env : RenderEnv)
    (city country : String) (dist width height : ℚ)
    (theme? : Option Theme) (display_city? display_country? : Option String)
    (road_colors road_thickness : Option (List (String × Bool)))
    (normalize_all : Bool) : Option Poster :=
  let theme := theme?.getD defaultTheme
  let display_city := pyOrStr display_city? city
  let display_country := pyOrStr display_country? country
  if min height width = 0 ∨ height = 0 then none
  else
    let compensated_dist := dist * (max height width / min height width) / 4
    match env.graphEdges with
    | none => none
    | some edges =>
      if env.drawError then none
      else
        match get_edge_colors_by_type edges (themeToList theme) road_colors
            normalize_all with
        | none => none
        | some ecs =>
          let ews := get_edge_widths_by_type edges road_thickness normalize_all
          let lims := get_crop_limits env.projCenter.1 env.projCenter.2
            width height compensated_dist
          let scale_factor := min height width / 12
          let spaced_city :=
            if is_latin_script isalpha display_city.data then
              String.intercalate "  "
                (display_city.toUpper.data.map (fun c => String.mk [c]))
            else display_city
          let base_adjusted_main := typo "main" * scale_factor
          let city_char_count := display_city.length
          let adjusted_font_size :=
            if city_char_count > 10 then
              max (base_adjusted_main * (10 / (city_char_count : ℚ)))
                (10 * scale_factor)
            else base_adjusted_main
          some
            { waterDrawn := layerDrawn env.waterGeoms,
              parksDrawn := layerDrawn env.parksGeoms,
              edge_colors := ecs,
              edge_widths := ews,
              crop_xlim := lims.1,
              crop_ylim := lims.2,
              spacedCity := spaced_city,
              countryText := display_country.toUpper,
              titleSize := adjusted_font_size,
              subSize := typo "sub" * scale_factor,
              coordsSize := typo "coords" * scale_factor,
              attrSize := typo "attr",
              dividerWidth := 1 * scale_factor }

/-- C3: `create_poster` returns None whenever the road-network fetch returned
None or the drawing backend raises during composition; a returned poster
implies the network was fetched and nothing raised (no partial posters); and
with the network present and nothing raising, an absent water or parks fetch
does not abort the render — a poster is produced with that layer omitted. -/
theorem create_poster_failure_semantics
    (isalpha : Char → Bool) (env : RenderEnv) (city country : String)
    (dist width height : ℚ) (theme? : Option Theme)
    (dcity dcountry : Option String) (rc rt : Option (List (String × Bool)))
    (norm : Bool) :
    (env.graphEdges = none →
      create_poster isalpha env city country dist width height theme?
        dcity dcountry rc rt norm = none) ∧
    (env.drawError = true →
      create_poster isalpha env city country dist width height theme?
        dcity dcountry rc rt norm = none) ∧
    (∀ p, create_poster isalpha env city country dist width height theme?
        dcity dcountry rc rt norm = some p →
      env.graphEdges ≠ none ∧ env.drawError = false) ∧
    (env.graphEdges ≠ none → env.drawError = false →
      ¬(min height width = 0 ∨ height = 0) →
      ∃ p, create_poster isalpha env city country dist width height theme?
          dcity dcountry rc rt norm = some p ∧
        (env.waterGeoms = none → p.waterDrawn = false) ∧
        (env.parksGeoms = none → p.parksDrawn = false)) := by
  by_cases hcond : (min height width = 0 ∨ height = 0)
  · exact ⟨fun _ => by simp [create_poster, hcond],
      fun _ => by simp [create_poster, hcond],
      fun p hp => absurd hp (by simp [create_poster, hcond]),
      fun _ _ hc => absurd hcond hc⟩
  · refine ⟨?_, ?_, ?_, ?_⟩
    · intro hg
      simp [create_poster, hcond, hg]
    · intro hde
      rcases henv : env.graphEdges with _ | edges
      · simp [create_poster, hcond, henv]
      · simp [create_poster, hcond, henv, hde]
    · intro p hp
      rcases henv : env.graphEdges with _ | edges
      · simp [create_poster, hcond, henv] at hp
      · by_cases hde : env.drawError
        · simp [create_poster, hcond, henv, hde] at hp
        · exact ⟨by simp [henv], by simpa using hde⟩
    · intro hg hde hc
      rcases henv : env.graphEdges with _ | edges
      · exact absurd henv hg
      · rcases hsome : create_poster isalpha env city country dist width height
            theme? dcity dcountry rc rt norm with _ | p
        · exfalso
          simp [create_poster, hcond, henv, hde,
            get_edge_colors_themeToList] at hsome
        · have hps := hsome
          simp only [create_poster, hcond, henv, hde,
            get_edge_colors_themeToList, if_neg, Bool.false_eq_true,
            if_false, Option.some.injEq] at hps
          subst hps
          exact ⟨_, rfl, fun hw => by simp [layerDrawn, hw],
            fun hpk => by simp [layerDrawn, hpk]⟩

/-- Witness for C3 at concrete inputs: with the network fetch absent the
result is None, and with the network present but the water fetch absent a
poster is produced whose water layer is omitted. -/
theorem create_poster_failure_semantics_witness :
    create_poster (fun _ => false)
      ⟨none, none, none, (0, 0), false⟩ "Paris" "France" 9000 12 16
      none none none none none false = none ∧
    ((create_poster (fun _ => false)
        ⟨some [HighwayTag.str "residential"], none, some ["Point"], (0, 0),
          false⟩
        "Paris" "France" 9000 12 16 none none none none none false).map
      Poster.waterDrawn) = some false := by
  constructor
  · exact (create_poster_failure_semantics (fun _ => false)
      ⟨none, none, none, (0, 0), false⟩ "Paris" "France" 9000 12 16
      none none none none none false).1 rfl
  · obtain ⟨p, hp, hw, _⟩ := (create_poster_failure_semantics (fun _ => false)
      ⟨some [HighwayTag.str "residential"], none, some ["Point"], (0, 0),
        false⟩
      "Paris" "France" 9000 12 16 none none none none none false).2.2.2
      (by simp) rfl (by norm_num)
    rw [hp]
    simp [hw rfl]

/-- Counterexample to C4 as stated: on a 24 x 24 canvas the scale factor is
`min(24,24)/12 = 2`, so the claim predicts an attribution font size of
`8 * 2 = 16`; but the attribution font is rebuilt at the unscaled base size
just before the attribution text is drawn (poster.py lines 645-648), so the
rendered attribution size is 8, not its base size times the scale factor. -/
theorem attribution_size_unscaled_cex :
    ((create_poster (fun _ => false)
        ⟨some [HighwayTag.str "residential"], none, none, (0, 0), false⟩
        "Paris" "France" 9000 24 24 none none none none none false).map
      Poster.attrSize) = some 8 ∧
    ¬((8 : ℚ) = 8 * (min (24 : ℚ) 24 / 12)) := by
  constructor
  · have hcond : ¬(min (24 : ℚ) 24 = 0 ∨ (24 : ℚ) = 0) := by norm_num
    simp [create_poster, hcond, get_edge_colors_themeToList]
    rfl
  · rw [min_self]
    norm_num

/-- C4 amended: every rendered text element's font size except the
attribution's equals its base typography size times
`scale_factor = min(height, width)/12` (subtitle 22, coordinates 14; the
divider line width 1 scales likewise); the attribution is rendered at its
unscaled base size 8; and the title size is
`max(60 * scale_factor * 10/char_count, 10 * scale_factor)` when the display
city name is longer than 10 characters and `60 * scale_factor` otherwise. -/
theorem create_poster_font_scaling_amended
    (isalpha : Char → Bool) (env : RenderEnv) (city country : String)
    (dist width height : ℚ) (theme? : Option Theme)
    (dcity dcountry : Option String) (rc rt : Option (List (String × Bool)))
    (norm : Bool) (p : Poster)
    (hp : create_poster isalpha env city country dist width height theme?
      dcity dcountry rc rt norm = some p) :
    p.subSize = 22 * (min height width / 12) ∧
    p.coordsSize = 14 * (min height width / 12) ∧
    p.dividerWidth = 1 * (min height width / 12) ∧
    p.attrSize = 8 ∧
    ((pyOrStr dcity city).length > 10 →
      p.titleSize = max (60 * (min height width / 12) *
        (10 / ((pyOrStr dcity city).length : ℚ)))
        (10 * (min height width / 12))) ∧
    (¬(pyOrStr dcity city).length > 10 →
      p.titleSize = 60 * (min height width / 12)) := by
  have hsub : typo "sub" = 22 := rfl
  have hcoords : typo "coords" = 14 := rfl
  have hattr : typo "attr" = 8 := rfl
  have hmain : typo "main" = 60 := rfl
  by_cases hcond : (min height width = 0 ∨ height = 0)
  · simp [create_poster, hcond] at hp
  · rcases henv : env.graphEdges with _ | edges
    · simp [create_poster, hcond, henv] at hp
    · by_cases hde : env.drawError
      · simp [create_poster, hcond, henv, hde] at hp
      · simp only [create_poster, hcond, henv, hde,
          get_edge_colors_themeToList, if_neg, Bool.false_eq_true, if_false,
          Option.some.injEq] at hp
        subst hp
        refine ⟨by simp [hsub], by simp [hcoords], by simp,
          by simp [hattr], ?_, ?_⟩
        · intro hlen
          simp [hlen, hmain]
        · intro hlen
          simp [hlen, hmain]

/-- Witness for the amended C4 at a concrete input: on a 12 x 16 canvas the
scale factor is 1 and the subtitle is rendered at its base size 22. -/
theorem create_poster_font_scaling_amended_witness :
    ((create_poster (fun _ => false)
        ⟨some [HighwayTag.str "residential"], none, none, (0, 0), false⟩
        "Paris" "France" 9000 12 16 none none none none none false).map
      Poster.subSize) = some 22 := by
  rcases hsome : create_poster (fun _ => false)
      ⟨some [HighwayTag.str "residential"], none, none, (0, 0), false⟩
      "Paris" "France" 9000 12 16 none none none none none false with _ | p
  · exfalso
    have hmin : (16 : ℚ) ⊓ 12 = 12 := by norm_num [min_def]
    simp [create_poster, hmin, get_edge_colors_themeToList] at hsome
  · have h := create_poster_font_scaling_amended (fun _ => false)
      ⟨some [HighwayTag.str "residential"], none, none, (0, 0), false⟩
      "Paris" "France" 9000 12 16 none none none none none false p hsome
    simp [h.1]
    norm_num [min_def]

/-- C10: `is_latin_script` returns true for every string with no alphabetic
characters (including the empty string), for any alphabetic classifier; so a
non-empty display city name made only of digits, punctuation or whitespace is
rendered as Latin text by `create_poster`: upper-cased with two-space
letter-spacing inserted between its characters. -/
theorem latin_script_no_alpha
    (isalpha : Char → Bool) (s : String)
    (hna : ∀ c ∈ s.data, isalpha c = false) :
    is_latin_script isalpha s.data = true ∧
    (∀ (env : RenderEnv) (city country : String) (dist width height : ℚ)
      (theme? : Option Theme) (dcountry : Option String)
      (rc rt : Option (List (String × Bool))) (norm : Bool) (p : Poster),
      s ≠ "" →
      create_poster isalpha env city country dist width height theme?
        (some s) dcountry rc rt norm = some p →
      p.spacedCity = String.intercalate "  "
        (s.toUpper.data.map (fun c => String.mk [c]))) := by
  have hlatin : is_latin_script isalpha s.data = true := by
    unfold is_latin_script
    by_cases hnil : s.data = []
    · simp [hnil]
    · have hfil : s.data.filter isalpha = [] := by
        rw [List.filter_eq_nil_iff]
        intro a ha
        simp [hna a ha]
      simp [hnil, hfil]
  refine ⟨hlatin, ?_⟩
  intro env city country dist width height theme? dcountry rc rt norm p hs hp
  have hdc : pyOrStr (some s) city = s := by simp [pyOrStr, hs]
  by_cases hcond : (min height width = 0 ∨ height = 0)
  · simp [create_poster, hcond] at hp
  · rcases henv : env.graphEdges with _ | edges
    · simp [create_poster, hcond, henv] at hp
    · by_cases hde : env.drawError
      · simp [create_poster, hcond, henv, hde] at hp
      · simp only [create_poster, hcond, henv, hde,
          get_edge_colors_themeToList, if_neg, Bool.false_eq_true, if_false,
          Option.some.injEq] at hp
        subst hp
        simp [hdc, hlatin]

/-- Witness for C10 at a concrete input: a display name of digits, spaces and
punctuation is classified Latin and rendered upper-cased and letter-spaced. -/
theorem latin_script_no_alpha_witness :
    is_latin_script Char.isAlpha ("1010 - 42!").data = true ∧
    ((create_poster Char.isAlpha ⟨some [], none, none, (0, 0), false⟩
        "X" "Y" 9000 12 16 none (some "1010 - 42!") none none none
        false).map Poster.spacedCity) =
      some (String.intercalate "  "
        (("1010 - 42!").toUpper.data.map (fun c => String.mk [c]))) := by
  have h := latin_script_no_alpha Char.isAlpha "1010 - 42!" (by decide)
  refine ⟨h.1, ?_⟩
  rcases hsome : create_poster Char.isAlpha
      ⟨some [], none, none, (0, 0), false⟩ "X" "Y" 9000 12 16 none
      (some "1010 - 42!") none none none false with _ | p
  · exfalso
    have hmin : (16 : ℚ) ⊓ 12 = 12 := by norm_num [min_def]
    simp [create_poster, hmin, get_edge_colors_themeToList] at hsome
  · have h2 := h.2 ⟨some [], none, none, (0, 0), false⟩ "X" "Y" 9000 12 16
      none none none none false p (by decide) hsome
    simp [h2]
